import Mathlib

/-!
Verification of the loan-lifecycle and credit-scoring backend
(`backend/server.js`) against its natural-language specification.

The document store (MongoDB via mongoose) is modelled as explicit lists of
records inside a `Store` structure; each HTTP handler becomes a pure Lean
function from a store (plus the authenticated caller and request data) to a
response together with the successor store.  Mongo's `findOneAndUpdate` /
`findByIdAndUpdate` update the first matching document and return the updated
document (`new: true`), which `updateFirst` models.  ObjectId allocation is
modelled by a `nextId` counter.
-/

namespace CreditBureau

/-- A stored user document (`UserSchema`). -/
structure User where
  id : Nat
  name : String
  email : String
  password : String
  role : String
  deriving Repr, DecidableEq

/-- A stored loan offer document (`LoanOfferSchema`); `isActive` defaults to true. -/
structure LoanOffer where
  id : Nat
  lenderId : Nat
  amount : Int
  interestRate : Int
  maxTermMonths : Int
  isActive : Bool
  deriving Repr, DecidableEq

/-- A stored loan application document (`LoanApplicationSchema`). -/
structure LoanApplication where
  id : Nat
  borrowerId : Nat
  loanOfferId : Nat
  nationalId : String
  monthlySalary : Int
  reason : String
  status : String
  deriving Repr, DecidableEq

/-- One entry of a `LoanPayment.payments` array: `{date, amount}`. -/
structure PaymentEntry where
  date : Nat
  amount : Int
  deriving Repr, DecidableEq

/-- A stored loan payment document (`LoanPaymentSchema`). -/
structure LoanPayment where
  id : Nat
  applicationId : Nat
  amountPaid : Int
  payments : List PaymentEntry
  deriving Repr, DecidableEq

/-- The whole document store. `nextId` models ObjectId allocation. -/
structure Store where
  users : List User
  offers : List LoanOffer
  applications : List LoanApplication
  loanPayments : List LoanPayment
  nextId : Nat
  deriving Repr, DecidableEq

/-- The identity decoded from a bearer token: `{id, email, role}`. -/
structure AuthUser where
  id : Nat
  email : String
  role : String
  deriving Repr, DecidableEq

/-- An HTTP-level response: a JSON value with status 200/201, or an error
status with a message. -/
inductive Resp (α : Type) where
  | ok (value : α)
  | err (status : Nat) (message : String)
  deriving Repr, DecidableEq

/-- Whether a response is an error response. -/
def Resp.isErr : Resp α → Bool
  | .ok _ => false
  | .err _ _ => true

/-- Whether a response is a 400 (Validation) error. -/
def Resp.isValidation : Resp α → Bool
  | .ok _ => false
  | .err s _ => s == 400

/-- Mongo-style update of the first document matching `p`, applying `f` and
returning the updated list together with the updated document (`new: true`),
or `none` when nothing matched. -/
def updateFirst (p : α → Bool) (f : α → α) : List α → List α × Option α
  | [] => ([], none)
  | x :: xs =>
    if p x then (f x :: xs, some (f x))
    else
      let r := updateFirst p f xs
      (x :: r.1, r.2)

/-- `calculateCreditScore` (server.js lines 304–315): the admin-view score.
Base 700, plus 5 per payment entry summed over all payment records, plus 20
per approved application, then `Math.min(Math.max(score, 300), 850)`. -/
def calculateCreditScore (applications : List LoanApplication)
    (paymentRecords : List LoanPayment) : Int :=
  let score : Int := 700
  let score :=
    if paymentRecords.length > 0 then
      let totalPayments :=
        paymentRecords.foldl (fun sum p => sum + (p.payments.length : Int)) 0
      score + totalPayments * 5
    else score
  let score :=
    if applications.length > 0 then
      let approvedLoans :=
        (applications.filter (fun a => a.status == "approved")).length
      score + (approvedLoans : Int) * 20
    else score
  min (max score 300) 850

/-- `POST /api/register` (lines 73–94).  Missing (JS-falsy, i.e. empty) fields
and duplicate emails are rejected with status 400; otherwise the user is
created with the hashed password.  Hashing (`bcrypt.hash`) is an opaque
collaborator passed as `hash`. -/
def register (s : Store) (name email password role : String)
    (hash : String → String) : Resp String × Store :=
  if name == "" || email == "" || password == "" || role == "" then
    (.err 400 "All fields are required!", s)
  else
    match s.users.find? (fun u => u.email == email) with
    | some _ => (.err 400 "Email already registered!", s)
    | none =>
      let newUser : User :=
        { id := s.nextId, name := name, email := email
          password := hash password, role := role }
      (.ok "User registered successfully!",
       { s with users := s.users ++ [newUser], nextId := s.nextId + 1 })

/-- `POST /api/login` (lines 96–119).  `User.findOne({email, role})` finds a
user matching both email and role; then `bcrypt.compare` (opaque `verify`) is
checked; success signs a token carrying `{id, email, role}`. -/
def login (s : Store) (email password role : String)
    (verify : String → String → Bool) : Resp AuthUser :=
  match s.users.find? (fun u => u.email == email && u.role == role) with
  | none => .err 400 "Invalid email or role!"
  | some user =>
    if verify password user.password then
      .ok { id := user.id, email := user.email, role := user.role }
    else
      .err 400 "Invalid password!"

/-- `PATCH /api/lender/applications/:id` (lines 186–212).  Requires role
lender; 404 when the application is absent.  On `status == "approved"`: the
referenced offer is deactivated and a `LoanPayment` record is created if none
exists for the application.  The lookup populates `loanOfferId`, and the
approved branch dereferences `appToUpdate.loanOfferId._id`, which throws (a
caught 500) when the referenced offer document is missing.  Finally the
application's status field is updated and the updated document returned. -/
def setApplicationStatus (s : Store) (caller : AuthUser) (appId : Nat)
    (status : String) : Resp (Option LoanApplication) × Store :=
  if caller.role != "lender" then (.err 403 "Forbidden", s)
  else
    match s.applications.find? (fun a => a.id == appId) with
    | none => (.err 404 "Application not found", s)
    | some appToUpdate =>
      if status == "approved" then
        match s.offers.find? (fun o => o.id == appToUpdate.loanOfferId) with
        | none => (.err 500 "Cannot read properties of null", s)
        | some _ =>
          let offers := (updateFirst (fun o => o.id == appToUpdate.loanOfferId)
            (fun o => { o with isActive := false }) s.offers).1
          let s := { s with offers := offers }
          let s :=
            match s.loanPayments.find? (fun p => p.applicationId == appId) with
            | some _ => s
            | none =>
              { s with
                loanPayments := s.loanPayments ++
                  [({ id := s.nextId, applicationId := appId,
                      amountPaid := 0, payments := [] } : LoanPayment)]
                nextId := s.nextId + 1 }
          let r := updateFirst (fun a => a.id == appId)
            (fun a => { a with status := status }) s.applications
          (.ok r.2, { s with applications := r.1 })
      else
        let r := updateFirst (fun a => a.id == appId)
          (fun a => { a with status := status }) s.applications
        (.ok r.2, { s with applications := r.1 })

/-- The document update a repayment applies to a `LoanPayment`:
`$inc: {amountPaid: amount}` and `$push: {payments: {amount}}` (the entry's
date defaulting to now). -/
def applyRepayment (amount : Int) (now : Nat) (p : LoanPayment) : LoanPayment :=
  { p with amountPaid := p.amountPaid + amount
           payments := p.payments ++ [{ date := now, amount := amount }] }

/-- `POST /api/borrower/payments/:applicationId` (lines 282–299).  Requires
role borrower; `LoanPayment.findOneAndUpdate({applicationId}, {$inc, $push},
{new: true})` updates the record if present and returns it, returning `null`
(here `none`) without touching the store when no record matches; either way
the handler responds 200 with `res.json(payment)`. -/
def recordPayment (s : Store) (caller : AuthUser) (applicationId : Nat)
    (amount : Int) (now : Nat) : Resp (Option LoanPayment) × Store :=
  if caller.role != "borrower" then (.err 403 "Forbidden", s)
  else
    let r := updateFirst (fun p => p.applicationId == applicationId)
      (applyRepayment amount now) s.loanPayments
    (.ok r.2, { s with loanPayments := r.1 })

/-- A payment document as read by the borrower credit-score route, which
inspects a `status` field ("ontime" / "late"); stored `LoanPayment` documents
carry no such field, so it is modelled as optional. -/
structure ScoredPaymentDoc where
  status : Option String
  deriving Repr, DecidableEq

/-- The scoring logic of `GET /api/borrower/credit-score` (lines 430–460) as a
function of the borrower's payment documents: base 650, plus 5 per document
with `status === "ontime"`, minus 10 per document with `status === "late"`,
then `Math.max(300, Math.min(score, 850))`. -/
def borrowerCreditScore (payments : List ScoredPaymentDoc) : Int :=
  let score : Int := 650
  let onTimePayments :=
    (payments.filter (fun p => p.status == some "ontime")).length
  let score := score + (onTimePayments : Int) * 5
  let latePayments :=
    (payments.filter (fun p => p.status == some "late")).length
  let score := score - (latePayments : Int) * 10
  max 300 (min score 850)

/-- A user document with the `password` field projected away, as returned by
the admin routes (`{ password: 0 }` / `.select('-password')`). -/
structure UserView where
  id : Nat
  name : String
  email : String
  role : String
  deriving Repr, DecidableEq

/-- Projection dropping the password field. -/
def User.toView (u : User) : UserView :=
  { id := u.id, name := u.name, email := u.email, role := u.role }

/-- `GET /api/admin/users` (lines 318–326): all users, password projected out. -/
def adminListUsers (s : Store) (caller : AuthUser) : Resp (List UserView) :=
  if caller.role != "admin" then .err 403 "Forbidden"
  else .ok (s.users.map User.toView)

/-- One element of the `GET /api/admin/borrowers` response: the borrower
(password projected out) with their applications, payment records and
admin-view credit score. -/
structure BorrowerView where
  user : UserView
  applications : List LoanApplication
  payments : List LoanPayment
  creditScore : Int
  deriving Repr, DecidableEq

/-- `GET /api/admin/borrowers` (lines 329–356): for each user with role
borrower (fetched with `{ password: 0 }`), the applications with that
`borrowerId`, the payment records whose `applicationId` is among those
applications, and `calculateCreditScore` of the two. -/
def adminListBorrowers (s : Store) (caller : AuthUser) : Resp (List BorrowerView) :=
  if caller.role != "admin" then .err 403 "Forbidden"
  else
    .ok ((s.users.filter (fun u => u.role == "borrower")).map (fun borrower =>
      let borrowerApps :=
        s.applications.filter (fun a => a.borrowerId == borrower.id)
      let borrowerPayments :=
        s.loanPayments.filter (fun p =>
          borrowerApps.any (fun a => a.id == p.applicationId))
      { user := borrower.toView
        applications := borrowerApps
        payments := borrowerPayments
        creditScore := calculateCreditScore borrowerApps borrowerPayments }))

/-- `PATCH /api/admin/users/:id/role` (lines 373–382): updates the user's role
and returns the updated document with `.select('-password')` (or `null` when
the user is absent). -/
def adminSetUserRole (s : Store) (caller : AuthUser) (userId : Nat)
    (role : String) : Resp (Option UserView) × Store :=
  if caller.role != "admin" then (.err 403 "Forbidden", s)
  else
    let r := updateFirst (fun u => u.id == userId)
      (fun u => { u with role := role }) s.users
    (.ok (r.2.map User.toView), { s with users := r.1 })

/-- Sum of the `amount` fields of a payment entry list. -/
def sumAmounts (entries : List PaymentEntry) : Int :=
  (entries.map (fun e => e.amount)).sum

/-- The PaymentRecord invariant: `amountPaid` equals the sum of the entry
amounts. -/
def PaymentInvariant (p : LoanPayment) : Prop :=
  p.amountPaid = sumAmounts p.payments

/-- A sequence of `recordPayment` calls by the same caller on the same
application, each with an amount and a timestamp, threaded through the store. -/
def recordPaymentSeq (caller : AuthUser) (applicationId : Nat) :
    Store → List (Int × Nat) → Store
  | s, [] => s
  | s, (amt, now) :: rest =>
    recordPaymentSeq caller applicationId
      (recordPayment s caller applicationId amt now).2 rest

/-- Folding a list of repayments into a single record. -/
def foldRepayments : LoanPayment → List (Int × Nat) → LoanPayment
  | p, [] => p
  | p, (amt, now) :: rest => foldRepayments (applyRepayment amt now p) rest

/-- Two stores that agree everywhere except possibly on stored password
hashes: their users project to the same password-free views and all other
collections coincide. -/
def EqModPasswords (s1 s2 : Store) : Prop :=
  s1.users.map User.toView = s2.users.map User.toView ∧
  s1.offers = s2.offers ∧
  s1.applications = s2.applications ∧
  s1.loanPayments = s2.loanPayments ∧
  s1.nextId = s2.nextId

/-- A concrete active loan offer used to instantiate the theorems. -/
def exOffer : LoanOffer :=
  { id := 5, lenderId := 20, amount := 1000, interestRate := 7
    maxTermMonths := 12, isActive := true }

/-- A concrete pending loan application against `exOffer`. -/
def exApplication : LoanApplication :=
  { id := 2, borrowerId := 10, loanOfferId := 5, nationalId := "N-77"
    monthlySalary := 900, reason := "tuition", status := "pending" }

/-- A concrete borrower-role user. -/
def exBorrowerUser : User :=
  { id := 10, name := "Bob", email := "bob@mail.test"
    password := "hash-b", role := "borrower" }

/-- A concrete lender-role user. -/
def exLenderUser : User :=
  { id := 20, name := "Lia", email := "lia@mail.test"
    password := "hash-l", role := "lender" }

/-- A concrete store: the two users, one active offer, one pending
application, no payment records. -/
def exStore : Store :=
  { users := [exBorrowerUser, exLenderUser], offers := [exOffer]
    applications := [exApplication], loanPayments := [], nextId := 100 }

/-- `exStore` with different stored password hashes and nothing else changed. -/
def exStoreAltHashes : Store :=
  { exStore with
    users := [{ exBorrowerUser with password := "other-b" },
              { exLenderUser with password := "other-l" }] }

/-- The authenticated identity of the borrower. -/
def exBorrower : AuthUser := { id := 10, email := "bob@mail.test", role := "borrower" }

/-- The authenticated identity of another borrower-role caller, not the
owner of any application in `exStore`. -/
def exOtherBorrower : AuthUser := { id := 30, email := "eve@mail.test", role := "borrower" }

/-- The authenticated identity of the lender. -/
def exLender : AuthUser := { id := 20, email := "lia@mail.test", role := "lender" }

/-- The authenticated identity of an admin. -/
def exAdmin : AuthUser := { id := 40, email := "adm@mail.test", role := "admin" }

/-- A fresh payment record for `exApplication`, as created on approval. -/
def exPaymentRecord : LoanPayment :=
  { id := 100, applicationId := 2, amountPaid := 0, payments := [] }

/-- `exStore` after approval: inactive offer, approved application, fresh
payment record. -/
def exStoreApproved : Store :=
  { exStore with
    offers := [{ exOffer with isActive := false }]
    applications := [{ exApplication with status := "approved" }]
    loanPayments := [exPaymentRecord]
    nextId := 101 }

section Helpers

variable {α : Type}

theorem updateFirst_of_find?_none (p : α → Bool) (f : α → α) (l : List α)
    (h : l.find? p = none) : updateFirst p f l = (l, none) := by
  induction l with
  | nil => rfl
  | cons x xs ih =>
    rcases hx : p x with _ | _
    · rw [List.find?_cons_of_neg _ (by simp [hx])] at h
      simp [updateFirst, hx, ih h]
    · rw [List.find?_cons_of_pos _ hx] at h
      exact absurd h (by simp)

theorem updateFirst_decomp (p : α → Bool) (f : α → α) (l : List α) (x : α)
    (h : l.find? p = some x) :
    ∃ l1 l2, l = l1 ++ x :: l2 ∧ (∀ y ∈ l1, p y = false) ∧
      updateFirst p f l = (l1 ++ f x :: l2, some (f x)) := by
  induction l with
  | nil => simp at h
  | cons z zs ih =>
    rcases hz : p z with _ | _
    · rw [List.find?_cons_of_neg _ (by simp [hz])] at h
      obtain ⟨l1, l2, hl, hneg, hupd⟩ := ih h
      refine ⟨z :: l1, l2, by simp [hl], ?_, ?_⟩
      · intro y hy
        rcases List.mem_cons.mp hy with rfl | hy
        · exact hz
        · exact hneg y hy
      · simp [updateFirst, hz, hupd]
    · rw [List.find?_cons_of_pos _ hz] at h
      obtain rfl : z = x := by simpa using h
      exact ⟨[], zs, rfl, by simp, by simp [updateFirst, hz]⟩

theorem find?_append_cons_of_neg (p : α → Bool) (l1 : List α) (y : α)
    (l2 : List α) (h1 : ∀ z ∈ l1, p z = false) (hy : p y = true) :
    (l1 ++ y :: l2).find? p = some y := by
  induction l1 with
  | nil => simpa using List.find?_cons_of_pos l2 hy
  | cons z zs ih =>
    rw [List.cons_append, List.find?_cons_of_neg _ (by simp [h1 z (by simp)])]
    exact ih (fun z hz => h1 z (by simp [hz]))

theorem find?_updateFirst_self (p : α → Bool) (f : α → α) (l : List α) (x : α)
    (h : l.find? p = some x) (hf : p (f x) = true) :
    ((updateFirst p f l).1).find? p = some (f x) := by
  obtain ⟨l1, l2, _, hneg, hupd⟩ := updateFirst_decomp p f l x h
  rw [hupd]
  exact find?_append_cons_of_neg p l1 (f x) l2 hneg hf

theorem find?_append_singleton_of_none (p : α → Bool) (l : List α) (x : α)
    (h : l.find? p = none) (hx : p x = true) :
    (l ++ [x]).find? p = some x := by
  have hneg : ∀ z ∈ l, p z = false := by
    intro z hz
    have := List.find?_eq_none.mp h z hz
    simpa using this
  exact find?_append_cons_of_neg p l x [] hneg hx

theorem foldl_add_lengths (l : List LoanPayment) (acc : Int) :
    l.foldl (fun sum p => sum + (p.payments.length : Int)) acc =
      acc + (l.map (fun p => (p.payments.length : Int))).sum := by
  induction l generalizing acc with
  | nil => simp
  | cons x xs ih => simp [List.foldl_cons, ih]; ring

end Helpers

/-- C1: the admin-view credit score is a pure function of the applications
and payment-records collections: it equals 700 plus 5 for every payment entry
summed over all payment records, plus 20 for every approved application,
clamped to [300, 850]; for empty inputs it returns 700, and for 3 payment
entries and 2 approved applications it returns 755. -/
theorem c1_admin_score_formula :
    (∀ (apps : List LoanApplication) (pays : List LoanPayment),
      calculateCreditScore apps pays =
        min (max (700 + (pays.map (fun p => (p.payments.length : Int))).sum * 5
          + ((apps.filter (fun a => a.status == "approved")).length : Int) * 20) 300) 850)
    ∧ calculateCreditScore [] [] = 700
    ∧ calculateCreditScore
        [{ exApplication with id := 1, status := "approved" },
         { exApplication with id := 2, status := "approved" }]
        [{ exPaymentRecord with payments := [⟨0, 10⟩, ⟨1, 20⟩, ⟨2, 30⟩] }] = 755 := by
  refine ⟨?_, by decide, by decide⟩
  intro apps pays
  unfold calculateCreditScore
  rcases pays with _ | ⟨p, ps⟩ <;> rcases apps with _ | ⟨a, as⟩ <;>
    simp [foldl_add_lengths]

/-- C5: the borrower-view credit score equals 650 plus 5 per payment entry
with status "ontime", minus 10 per entry with status "late", clamped to
[300, 850]; any collection of entries lacking a status field yields exactly
650. -/
theorem c5_borrower_score_formula :
    (∀ entries : List ScoredPaymentDoc,
      borrowerCreditScore entries =
        max 300 (min (650
          + ((entries.filter (fun p => p.status == some "ontime")).length : Int) * 5
          - ((entries.filter (fun p => p.status == some "late")).length : Int) * 10) 850))
    ∧ (∀ entries : List ScoredPaymentDoc,
        (∀ e ∈ entries, e.status = none) → borrowerCreditScore entries = 650) := by
  constructor
  · intro entries
    rfl
  · intro entries h
    have h1 : entries.filter (fun p => p.status == some "ontime") = [] :=
      List.filter_eq_nil_iff.mpr (fun e he => by simp [h e he])
    have h2 : entries.filter (fun p => p.status == some "late") = [] :=
      List.filter_eq_nil_iff.mpr (fun e he => by simp [h e he])
    norm_num [borrowerCreditScore, h1, h2]

/-- Witness for C5: two status-less entries score exactly 650. -/
theorem c5_witness : borrowerCreditScore [⟨none⟩, ⟨none⟩] = 650 :=
  c5_borrower_score_formula.2 [⟨none⟩, ⟨none⟩] (by decide)

/-- C9: the outcome of `recordPayment` does not depend on which
borrower-role caller invokes it — there is no ownership check beyond the
role check. -/
theorem c9_recordPayment_caller_independent (s : Store) (c1 c2 : AuthUser)
    (applicationId : Nat) (amount : Int) (now : Nat)
    (h1 : c1.role = "borrower") (h2 : c2.role = "borrower") :
    recordPayment s c1 applicationId amount now =
      recordPayment s c2 applicationId amount now := by
  simp [recordPayment, h1, h2]

/-- Witness for C9: the owning borrower and an unrelated borrower-role
caller produce the same response and store. -/
theorem c9_witness :
    recordPayment exStoreApproved exBorrower 2 50 7 =
      recordPayment exStoreApproved exOtherBorrower 2 50 7 :=
  c9_recordPayment_caller_independent exStoreApproved exBorrower exOtherBorrower
    2 50 7 rfl rfl

/-- C2 counterexample: in `exStore` no payment record exists for
application 2, yet `recordPayment` does not fail with NotFound — it responds
200 with a null body (`ok none`) and leaves the store unchanged, refuting
the claimed NotFound failure. -/
theorem c2_counterexample :
    (recordPayment exStore exBorrower 2 50 0).1 = Resp.ok none
    ∧ (recordPayment exStore exBorrower 2 50 0).1.isErr = false
    ∧ (recordPayment exStore exBorrower 2 50 0).2 = exStore := by
  refine ⟨rfl, rfl, ?_⟩
  decide

/-- C2 (amended): for a borrower-role caller, when no payment record exists
for the applicationId, `recordPayment` responds with a success carrying a
null record and leaves the store unchanged (it does not fail with NotFound);
when a record exists, it returns the updated record with the amount added
and the entry appended. -/
theorem c2_recordPayment_amended (s : Store) (caller : AuthUser)
    (applicationId : Nat) (amount : Int) (now : Nat)
    (hrole : caller.role = "borrower") :
    (s.loanPayments.find? (fun p => p.applicationId == applicationId) = none →
      recordPayment s caller applicationId amount now = (Resp.ok none, s))
    ∧ (∀ q, s.loanPayments.find? (fun p => p.applicationId == applicationId) = some q →
        (recordPayment s caller applicationId amount now).1 =
          Resp.ok (some (applyRepayment amount now q))) := by
  constructor
  · intro hnone
    simp [recordPayment, hrole, updateFirst_of_find?_none _ _ _ hnone]
  · intro q hq
    obtain ⟨l1, l2, _, _, hupd⟩ :=
      updateFirst_decomp (fun p => p.applicationId == applicationId)
        (applyRepayment amount now) s.loanPayments q hq
    simp [recordPayment, hrole, hupd]

/-- Witness for C2 (amended): in `exStore` (no record) the call returns
`ok none` and the unchanged store; in `exStoreApproved` it returns the
updated record. -/
theorem c2_witness :
    recordPayment exStore exOtherBorrower 2 50 0 = (Resp.ok none, exStore)
    ∧ (recordPayment exStoreApproved exBorrower 2 50 0).1 =
        Resp.ok (some (applyRepayment 50 0 exPaymentRecord)) :=
  ⟨(c2_recordPayment_amended exStore exOtherBorrower 2 50 0 rfl).1 (by decide),
   (c2_recordPayment_amended exStoreApproved exBorrower 2 50 0 rfl).2
     exPaymentRecord (by decide)⟩

/-- C7: when some stored user already has email E, `register` fails with a
Validation (400) error for every name, password and role, and the store —
in particular the users collection — is unchanged. -/
theorem c7_register_duplicate_email (s : Store) (u : User) (hu : u ∈ s.users)
    (name E password role : String) (hE : u.email = E)
    (hash : String → String) :
    (register s name E password role hash).1.isValidation = true
    ∧ (register s name E password role hash).2 = s := by
  unfold register
  by_cases hempty : (name == "" || E == "" || password == "" || role == "") = true
  · simp [hempty, Resp.isValidation]
  · rcases hf : s.users.find? (fun v => v.email == E) with _ | v
    · exact absurd (List.find?_eq_none.mp hf u hu) (by simp [hE])
    · simp [hempty, hf, Resp.isValidation]

/-- Witness for C7: re-registering `bob@mail.test` (held by a borrower)
under the admin role is rejected with a 400 error and creates no user. -/
theorem c7_witness :
    (register exStore "Eve" "bob@mail.test" "pw" "admin" id).1.isValidation = true
    ∧ (register exStore "Eve" "bob@mail.test" "pw" "admin" id).2 = exStore :=
  c7_register_duplicate_email exStore exBorrowerUser (by decide)
    "Eve" "bob@mail.test" "pw" "admin" rfl id

/-- C8: `login` fails with a Validation error when no stored user matches
both the email and the role; fails with a Validation error when such a user
exists but the password comparison fails; and issues a token only when the
email+role pair matches a stored user and the password comparison succeeds. -/
theorem c8_login_spec (s : Store) (email password role : String)
    (verify : String → String → Bool) :
    (s.users.find? (fun u => u.email == email && u.role == role) = none →
      login s email password role verify = Resp.err 400 "Invalid email or role!")
    ∧ (∀ u, s.users.find? (fun u => u.email == email && u.role == role) = some u →
        verify password u.password = false →
        login s email password role verify = Resp.err 400 "Invalid password!")
    ∧ (∀ t, login s email password role verify = Resp.ok t →
        ∃ u, s.users.find? (fun u => u.email == email && u.role == role) = some u
          ∧ verify password u.password = true
          ∧ t = { id := u.id, email := u.email, role := u.role }) := by
  refine ⟨fun hnone => by simp [login, hnone], fun u hu hv => by simp [login, hu, hv], ?_⟩
  intro t ht
  rcases hf : s.users.find? (fun v => v.email == email && v.role == role) with _ | u
  · have : login s email password role verify = Resp.err 400 "Invalid email or role!" := by
      simp [login, hf]
    rw [this] at ht
    simp at ht
  · by_cases hv : verify password u.password = true
    · have : login s email password role verify =
          Resp.ok { id := u.id, email := u.email, role := u.role } := by
        simp [login, hf, hv]
      rw [this] at ht
      exact ⟨u, hf, hv, (Resp.ok.inj ht).symm⟩
    · have : login s email password role verify = Resp.err 400 "Invalid password!" := by
        simp [login, hf, hv]
      rw [this] at ht
      simp at ht

/-- Witness for C8: Bob's email exists with role borrower, so a login
attempt for that email under the lender role is rejected with the
email-or-role Validation error even though the password would verify. -/
theorem c8_witness :
    login exStore "bob@mail.test" "pw" "lender" (fun _ _ => true) =
      Resp.err 400 "Invalid email or role!" :=
  (c8_login_spec exStore "bob@mail.test" "pw" "lender" (fun _ _ => true)).1 (by decide)

/-- C4: `amountPaid` equals the sum of the entry amounts; this invariant is
preserved by the repayment update, and starting from a freshly created
record (amountPaid 0, no entries), N sequential `recordPayment` calls with
amounts a1..aN leave the store's record for that application with
amountPaid = a1+...+aN and the N entries in call order. -/
theorem c4_payment_invariant (s : Store) (caller : AuthUser)
    (applicationId : Nat) (amts : List (Int × Nat)) (p0 q : LoanPayment)
    (amount : Int) (now : Nat)
    (hrole : caller.role = "borrower")
    (hp : s.loanPayments.find? (fun p => p.applicationId == applicationId) = some p0)
    (h0 : p0.amountPaid = 0) (hnil : p0.payments = [])
    (hq : PaymentInvariant q) :
    PaymentInvariant (applyRepayment amount now q)
    ∧ (recordPaymentSeq caller applicationId s amts).loanPayments.find?
        (fun p => p.applicationId == applicationId) = some (foldRepayments p0 amts)
    ∧ (foldRepayments p0 amts).amountPaid = (amts.map Prod.fst).sum
    ∧ (foldRepayments p0 amts).payments.map (fun e => e.amount) = amts.map Prod.fst
    ∧ (foldRepayments p0 amts).payments.length = amts.length := by
  have hfold : ∀ (r : LoanPayment) (l : List (Int × Nat)),
      (foldRepayments r l).amountPaid = r.amountPaid + (l.map Prod.fst).sum
      ∧ (foldRepayments r l).payments =
          r.payments ++ l.map (fun x => ({ date := x.2, amount := x.1 } : PaymentEntry)) := by
    intro r l
    induction l generalizing r with
    | nil => simp [foldRepayments]
    | cons hd tl ih =>
      obtain ⟨a, n⟩ := hd
      obtain ⟨ih1, ih2⟩ := ih (applyRepayment a n r)
      constructor
      · show (foldRepayments (applyRepayment a n r) tl).amountPaid = _
        rw [ih1]
        simp only [applyRepayment, List.map_cons, List.sum_cons]
        ring
      · show (foldRepayments (applyRepayment a n r) tl).payments = _
        rw [ih2]
        simp [applyRepayment]
  refine ⟨?_, ?_, ?_, ?_, ?_⟩
  · simp only [PaymentInvariant, applyRepayment, sumAmounts, List.map_append,
      List.sum_append, List.map_cons, List.sum_cons, List.map_nil, List.sum_nil] at hq ⊢
    omega
  · clear h0 hnil
    induction amts generalizing s p0 with
    | nil => simpa [recordPaymentSeq, foldRepayments] using hp
    | cons hd tl ih =>
      obtain ⟨a, n⟩ := hd
      have hpq := List.find?_some hp
      have hstep :
          ((recordPayment s caller applicationId a n).2).loanPayments.find?
            (fun p => p.applicationId == applicationId) =
            some (applyRepayment a n p0) := by
        have := find?_updateFirst_self (fun x => x.applicationId == applicationId)
          (applyRepayment a n) s.loanPayments p0 hp
          (by simpa [applyRepayment] using hpq)
        simpa [recordPayment, hrole] using this
      simpa [recordPaymentSeq, foldRepayments] using
        ih (recordPayment s caller applicationId a n).2 (applyRepayment a n p0) hstep
  · simp [(hfold p0 amts).1, h0]
  · simp [(hfold p0 amts).2, hnil]
  · simp [(hfold p0 amts).2, hnil]

/-- Witness for C4: two repayments of 50 and 70 on the fresh record of
`exStoreApproved` leave amountPaid 120 and the two entries in call order. -/
theorem c4_witness :
    (recordPaymentSeq exBorrower 2 exStoreApproved [(50, 7), (70, 9)]).loanPayments.find?
        (fun p => p.applicationId == 2) =
      some (foldRepayments exPaymentRecord [(50, 7), (70, 9)])
    ∧ (foldRepayments exPaymentRecord [(50, 7), (70, 9)]).amountPaid = 120
    ∧ (foldRepayments exPaymentRecord [(50, 7), (70, 9)]).payments.map
        (fun e => e.amount) = [50, 70] := by
  have h := c4_payment_invariant exStoreApproved exBorrower 2 [(50, 7), (70, 9)]
    exPaymentRecord exPaymentRecord 50 7 rfl (by decide) (by decide) (by decide)
    (by simp [PaymentInvariant, sumAmounts, exPaymentRecord])
  exact ⟨h.2.1, by rw [h.2.2.1]; decide, by rw [h.2.2.2.1]; decide⟩

/-- Mapping a conditional rewrite over a list none of whose elements match
leaves the list unchanged. -/
theorem map_ite_of_none_matches
    (f : LoanApplication → LoanApplication) (i : Nat)
    (l : List LoanApplication) (hl : ∀ y ∈ l, (y.id == i) = false) :
    l.map (fun x => if x.id == i then f x else x) = l := by
  induction l with
  | nil => rfl
  | cons z zs ih =>
    rw [List.map_cons, if_neg (by simp [hl z (by simp)]),
      ih (fun y hy => hl y (by simp [hy]))]

/-- C6: for an existing application with store-wide unique application ids,
`setApplicationStatus(id, "rejected")` by a lender changes only that
application's status field: users, offers, payment records, the id counter
and every other application are unchanged, no payment record is created, and
the updated application differs from the original only in `status`. -/
theorem c6_reject_frame (s : Store) (caller : AuthUser) (i : Nat)
    (a : LoanApplication)
    (hrole : caller.role = "lender")
    (ha : s.applications.find? (fun x => x.id == i) = some a)
    (huniq : s.applications.Pairwise (fun x y => x.id ≠ y.id)) :
    setApplicationStatus s caller i "rejected" =
      (Resp.ok (some { a with status := "rejected" }),
       { s with applications :=
          s.applications.map (fun x =>
            if x.id == i then { x with status := "rejected" } else x) }) := by
  obtain ⟨l1, l2, hdec, hneg, hupd⟩ :=
    updateFirst_decomp (fun x => x.id == i)
      (fun x => { x with status := "rejected" }) s.applications a ha
  have hai := List.find?_some ha
  have hai' : a.id = i := by simpa using hai
  have hneg2 : ∀ y ∈ l2, (y.id == i) = false := by
    rw [hdec] at huniq
    have hpair := (List.pairwise_cons.mp (List.pairwise_append.mp huniq).2.1).1
    intro y hy
    have : a.id ≠ y.id := hpair y hy
    simp only [beq_eq_false_iff_ne, ne_eq]
    exact fun hyi => this (hai'.trans hyi.symm)
  have hmap : s.applications.map (fun x =>
      if x.id == i then { x with status := "rejected" } else x) =
      l1 ++ { a with status := "rejected" } :: l2 := by
    rw [hdec, List.map_append, List.map_cons, if_pos hai,
      map_ite_of_none_matches _ i l1 hneg, map_ite_of_none_matches _ i l2 hneg2]
  have hne : (("rejected" : String) == "approved") = false := by decide
  rw [hmap]
  simp [setApplicationStatus, hrole, ha, hne, hupd]

/-- Witness for C6: rejecting the pending application of `exStore` updates
only its status and leaves everything else in the store unchanged. -/
theorem c6_witness :
    setApplicationStatus exStore exLender 2 "rejected" =
      (Resp.ok (some { exApplication with status := "rejected" }),
       { exStore with applications :=
          exStore.applications.map (fun x =>
            if x.id == 2 then { x with status := "rejected" } else x) }) :=
  c6_reject_frame exStore exLender 2 exApplication rfl (by decide) (by decide)

/-- Approval step on a store that already holds a payment record for the
application: the payment collection is untouched and the referenced offer is
deactivated (again). -/
theorem setApplicationStatus_approved_existing (s : Store) (caller : AuthUser)
    (i : Nat) (b : LoanApplication) (u : LoanOffer) (q : LoanPayment)
    (hrole : caller.role = "lender")
    (ha : s.applications.find? (fun x => x.id == i) = some b)
    (ho : s.offers.find? (fun x => x.id == b.loanOfferId) = some u)
    (hp : s.loanPayments.find? (fun p => p.applicationId == i) = some q) :
    ((setApplicationStatus s caller i "approved").2).loanPayments = s.loanPayments
    ∧ ((setApplicationStatus s caller i "approved").2).offers =
      (updateFirst (fun x => x.id == b.loanOfferId)
        (fun x => { x with isActive := false }) s.offers).1 := by
  constructor <;> simp [setApplicationStatus, hrole, ha, ho, hp]

/-- C3: for an existing application whose referenced offer exists and which
has no payment record yet, approving it twice in sequence creates exactly one
payment record — the second invocation creates no second record — that
record has amountPaid 0 and no entries when no repayment intervened, and the
referenced offer is inactive after either invocation. -/
theorem c3_approve_twice_idempotent (s : Store) (caller : AuthUser) (i : Nat)
    (a : LoanApplication) (o : LoanOffer)
    (hrole : caller.role = "lender")
    (ha : s.applications.find? (fun x => x.id == i) = some a)
    (ho : s.offers.find? (fun x => x.id == a.loanOfferId) = some o)
    (hp : s.loanPayments.find? (fun p => p.applicationId == i) = none) :
    ((setApplicationStatus s caller i "approved").2).loanPayments =
      s.loanPayments ++
        [{ id := s.nextId, applicationId := i, amountPaid := 0, payments := [] }]
    ∧ ((setApplicationStatus (setApplicationStatus s caller i "approved").2
          caller i "approved").2).loanPayments =
      s.loanPayments ++
        [{ id := s.nextId, applicationId := i, amountPaid := 0, payments := [] }]
    ∧ ((setApplicationStatus (setApplicationStatus s caller i "approved").2
          caller i "approved").2).loanPayments.countP
        (fun p => p.applicationId == i) = 1
    ∧ ((setApplicationStatus s caller i "approved").2).offers.find?
        (fun x => x.id == a.loanOfferId) = some { o with isActive := false }
    ∧ ((setApplicationStatus (setApplicationStatus s caller i "approved").2
          caller i "approved").2).offers.find?
        (fun x => x.id == a.loanOfferId) = some { o with isActive := false } := by
  have e1p : ((setApplicationStatus s caller i "approved").2).loanPayments =
      s.loanPayments ++
        [{ id := s.nextId, applicationId := i, amountPaid := 0, payments := [] }] := by
    simp [setApplicationStatus, hrole, ha, ho, hp]
  have e1o : ((setApplicationStatus s caller i "approved").2).offers =
      (updateFirst (fun x => x.id == a.loanOfferId)
        (fun x => { x with isActive := false }) s.offers).1 := by
    simp [setApplicationStatus, hrole, ha, ho, hp]
  have e1a : ((setApplicationStatus s caller i "approved").2).applications =
      (updateFirst (fun x => x.id == i)
        (fun x => { x with status := "approved" }) s.applications).1 := by
    simp [setApplicationStatus, hrole, ha, ho, hp]
  have ha2 : ((setApplicationStatus s caller i "approved").2).applications.find?
      (fun x => x.id == i) = some { a with status := "approved" } := by
    rw [e1a]
    exact find?_updateFirst_self _ _ _ _ ha (by simpa using List.find?_some ha)
  have ho2 : ((setApplicationStatus s caller i "approved").2).offers.find?
      (fun x => x.id == a.loanOfferId) = some { o with isActive := false } := by
    rw [e1o]
    exact find?_updateFirst_self _ _ _ _ ho (by simpa using List.find?_some ho)
  have hp2 : ((setApplicationStatus s caller i "approved").2).loanPayments.find?
      (fun p => p.applicationId == i) =
      some { id := s.nextId, applicationId := i, amountPaid := 0, payments := [] } := by
    rw [e1p]
    exact find?_append_singleton_of_none _ _ _ hp (by simp)
  obtain ⟨e2p, e2o⟩ := setApplicationStatus_approved_existing
    (setApplicationStatus s caller i "approved").2 caller i
    { a with status := "approved" } { o with isActive := false }
    { id := s.nextId, applicationId := i, amountPaid := 0, payments := [] }
    hrole ha2 ho2 hp2
  have hcount : (s.loanPayments ++
      [({ id := s.nextId, applicationId := i, amountPaid := 0,
          payments := [] } : LoanPayment)]).countP
      (fun p => p.applicationId == i) = 1 := by
    rw [List.countP_append]
    have h0 : s.loanPayments.countP (fun p => p.applicationId == i) = 0 :=
      List.countP_eq_zero.mpr (List.find?_eq_none.mp hp)
    simp [h0, List.countP_cons]
  refine ⟨e1p, e2p.trans e1p, ?_, ho2, ?_⟩
  · rw [e2p, e1p]
    exact hcount
  · rw [e2o]
    have := find?_updateFirst_self (fun x => x.id == a.loanOfferId)
      (fun x => { x with isActive := false })
      ((setApplicationStatus s caller i "approved").2).offers
      { o with isActive := false } ho2 (by simpa using List.find?_some ho)
    simpa using this

/-- Witness for C3: approving the pending application of `exStore` twice
yields a single fresh payment record and an inactive offer after both calls. -/
theorem c3_witness :
    ((setApplicationStatus exStore exLender 2 "approved").2).loanPayments =
      exStore.loanPayments ++
        [{ id := 100, applicationId := 2, amountPaid := 0, payments := [] }]
    ∧ ((setApplicationStatus (setApplicationStatus exStore exLender 2 "approved").2
          exLender 2 "approved").2).loanPayments.countP
        (fun p => p.applicationId == 2) = 1
    ∧ ((setApplicationStatus (setApplicationStatus exStore exLender 2 "approved").2
          exLender 2 "approved").2).offers.find?
        (fun x => x.id == exApplication.loanOfferId) =
      some { exOffer with isActive := false } := by
  have h := c3_approve_twice_idempotent exStore exLender 2 exApplication exOffer
    rfl (by decide) (by decide) (by decide)
  exact ⟨h.1, h.2.2.1, h.2.2.2.2⟩

/-- The borrower enrichment of `GET /api/admin/borrowers` is determined by
the password-free view of the users: user lists with equal views yield equal
responses over the same applications and payments. -/
theorem listBorrowers_congr (apps : List LoanApplication)
    (pays : List LoanPayment) (l1 l2 : List User)
    (h : l1.map User.toView = l2.map User.toView) :
    (l1.filter (fun u => u.role == "borrower")).map (fun borrower =>
      ({ user := borrower.toView
         applications := apps.filter (fun a => a.borrowerId == borrower.id)
         payments := pays.filter (fun p =>
           (apps.filter (fun a => a.borrowerId == borrower.id)).any
             (fun a => a.id == p.applicationId))
         creditScore := calculateCreditScore
           (apps.filter (fun a => a.borrowerId == borrower.id))
           (pays.filter (fun p =>
             (apps.filter (fun a => a.borrowerId == borrower.id)).any
               (fun a => a.id == p.applicationId))) } : BorrowerView)) =
    (l2.filter (fun u => u.role == "borrower")).map (fun borrower =>
      ({ user := borrower.toView
         applications := apps.filter (fun a => a.borrowerId == borrower.id)
         payments := pays.filter (fun p =>
           (apps.filter (fun a => a.borrowerId == borrower.id)).any
             (fun a => a.id == p.applicationId))
         creditScore := calculateCreditScore
           (apps.filter (fun a => a.borrowerId == borrower.id))
           (pays.filter (fun p =>
             (apps.filter (fun a => a.borrowerId == borrower.id)).any
               (fun a => a.id == p.applicationId))) } : BorrowerView)) := by
  induction l1 generalizing l2 with
  | nil =>
    cases l2 with
    | nil => rfl
    | cons y ys => simp at h
  | cons x xs ih =>
    cases l2 with
    | nil => simp at h
    | cons y ys =>
      simp only [List.map_cons, List.cons.injEq] at h
      obtain ⟨hxy, hrest⟩ := h
      have hrole : x.role = y.role := congrArg UserView.role hxy
      have hid : x.id = y.id := congrArg UserView.id hxy
      by_cases hb : (x.role == "borrower") = true
      · rw [List.filter_cons_of_pos (p := fun u : User => u.role == "borrower") hb,
          List.filter_cons_of_pos (p := fun u : User => u.role == "borrower")
            (show (y.role == "borrower") = true by rw [← hrole]; exact hb),
          List.map_cons, List.map_cons, hxy, hid, ih ys hrest]
      · rw [List.filter_cons_of_neg (p := fun u : User => u.role == "borrower") hb,
          List.filter_cons_of_neg (p := fun u : User => u.role == "borrower")
            (show ¬(y.role == "borrower") = true by rw [← hrole]; exact hb)]
        exact ih ys hrest

/-- The role update of `PATCH /api/admin/users/:id/role` commutes with the
password-free view: user lists with equal views yield equal returned views. -/
theorem updateFirst_role_view (userId : Nat) (role : String)
    (l1 l2 : List User) (h : l1.map User.toView = l2.map User.toView) :
    ((updateFirst (fun u => u.id == userId)
        (fun u => { u with role := role }) l1).2).map User.toView =
      ((updateFirst (fun u => u.id == userId)
        (fun u => { u with role := role }) l2).2).map User.toView := by
  induction l1 generalizing l2 with
  | nil =>
    cases l2 with
    | nil => rfl
    | cons y ys => simp at h
  | cons x xs ih =>
    cases l2 with
    | nil => simp at h
    | cons y ys =>
      simp only [List.map_cons, List.cons.injEq] at h
      obtain ⟨hxy, hrest⟩ := h
      have hid : x.id = y.id := congrArg UserView.id hxy
      have hname : x.name = y.name := congrArg UserView.name hxy
      have hemail : x.email = y.email := congrArg UserView.email hxy
      by_cases hb : (x.id == userId) = true
      · have hb' : (y.id == userId) = true := by rw [← hid]; exact hb
        simp [updateFirst, hb, hb', User.toView, hid, hname, hemail]
      · have hb' : ¬((y.id == userId) = true) := by rw [← hid]; exact hb
        simp only [updateFirst, hb, hb', if_false, Bool.false_eq_true]
        exact ih ys hrest

/-- C10: the admin user views are blind to stored password hashes: for any
two stores that agree up to password hashes, `GET /api/admin/users`,
`GET /api/admin/borrowers` and `PATCH /api/admin/users/:id/role` produce
identical responses, which carry only the password-free `UserView`. -/
theorem c10_admin_views_password_free (s1 s2 : Store) (caller : AuthUser)
    (userId : Nat) (role : String)
    (h : EqModPasswords s1 s2) :
    adminListUsers s1 caller = adminListUsers s2 caller
    ∧ adminListBorrowers s1 caller = adminListBorrowers s2 caller
    ∧ (adminSetUserRole s1 caller userId role).1 =
        (adminSetUserRole s2 caller userId role).1 := by
  obtain ⟨hu, ho, ha, hp, hn⟩ := h
  by_cases hc : (caller.role != "admin") = true
  · refine ⟨?_, ?_, ?_⟩ <;> simp [adminListUsers, adminListBorrowers,
      adminSetUserRole, hc]
  · refine ⟨?_, ?_, ?_⟩
    · simp [adminListUsers, hc, hu]
    · simp only [adminListBorrowers, hc, Bool.false_eq_true, if_false]
      rw [← ha, ← hp]
      exact congrArg Resp.ok (listBorrowers_congr s1.applications s1.loanPayments
        s1.users s2.users hu)
    · simp only [adminSetUserRole, hc, Bool.false_eq_true, if_false]
      exact congrArg Resp.ok (updateFirst_role_view userId role s1.users s2.users hu)

/-- Witness for C10: `exStore` and `exStoreAltHashes` differ only in the
stored hashes and all three admin views coincide on them. -/
theorem c10_witness :
    adminListUsers exStore exAdmin = adminListUsers exStoreAltHashes exAdmin
    ∧ adminListBorrowers exStore exAdmin =
        adminListBorrowers exStoreAltHashes exAdmin
    ∧ (adminSetUserRole exStore exAdmin 10 "lender").1 =
        (adminSetUserRole exStoreAltHashes exAdmin 10 "lender").1 :=
  c10_admin_views_password_free exStore exStoreAltHashes exAdmin 10 "lender"
    ⟨by decide, rfl, rfl, rfl, rfl⟩

end CreditBureau
